import Mathlib

/-!
Verification development for the prediction-serving API (`src/api/app.py`).

The service keeps two module-level variables, `model` and `REQUIRED_COLUMNS`,
written only by the startup hook, and exposes three routes: `/` (root),
`/health` and `/predict`.  The embedding below models:

* an `Instance` (one element of `PredictRequest.instances`, a JSON object
  mapping feature names to numbers) as an association list `List (String × ℚ)`
  looked up by first occurrence, exactly as a Python `dict` (which cannot hold
  duplicate keys) behaves;
* `pd.DataFrame(request.instances)` by its column axis: the columns are the
  union of the instances' keys in order of first appearance, and a row's entry
  for a column the instance lacks is `NaN`, modelled as `none : Option ℚ`;
* the loaded artifact as an opaque row classifier: `predictRow` gives the
  label for one aligned row (scikit-learn estimators predict each row
  independently), and `rejects` tells whether `model.predict` raises on a
  given matrix (a deterministic function of the input, e.g. a shape mismatch);
* the handlers as pure functions of the server state; `predict` additionally
  returns the number of times `model.predict` was entered, so that
  "the model was never invoked" is a statement of the embedding.

All Python exception paths of `predict` are `HTTPException`s mapped to
`(status, detail)` pairs.  `pd.DataFrame` applied to a list of dicts with
numeric values never raises, so the `except` branch guarding the DataFrame
construction (`Invalid input format: ...`) is unreachable for the value
domain modelled here and has no counterpart below.
-/

namespace PredictionService

/-- One instance of a `PredictRequest`: a JSON object mapping feature names
to numeric values, modelled as an association list with first-match lookup
(Python dicts cannot hold duplicate keys). -/
abbrev Instance := List (String × ℚ)

/-- The loaded classifier artifact, as the code observes it:
`feature_names_in_` is `list(getattr(model, "feature_names_in_", []))`
(empty when the artifact carries no schema metadata); `predictRow` is the
label the artifact assigns to one aligned row; `rejects X = some e` when
`model.predict(X)` raises with message `e` (deterministically in `X`). -/
structure Model where
  feature_names_in_ : List String
  predictRow : List (Option ℚ) → Int
  rejects : List (List (Option ℚ)) → Option String

/-- The module-level mutable state of `src/api/app.py`: `model` (None until
loaded) and `REQUIRED_COLUMNS`. -/
structure ServerState where
  model : Option Model
  REQUIRED_COLUMNS : List String

/-- `MODEL_PATH = REPO_DIR / "models" / "final_model.joblib"`, kept abstract
as its repo-relative rendering (only ever reported in responses). -/
def MODEL_PATH : String := "models/final_model.joblib"

/-- Module initialization: `model = None`, `REQUIRED_COLUMNS = []`. -/
def initialState : ServerState := { model := none, REQUIRED_COLUMNS := [] }

/-- What the environment presents to the startup hook: the artifact file is
absent, `joblib.load` (or the subsequent metadata extraction) raises, or a
model is obtained. -/
inductive LoadResult where
  | absent
  | loadFailure (e : String)
  | loaded (m : Model)

/-- The `startup_event` hook.  If the file is absent it sets `model = None`
and returns; otherwise it tries to load: on success it sets `model` and
`REQUIRED_COLUMNS = list(getattr(model, "feature_names_in_", []))`, and the
`except` clause swallows any failure, setting `model = None` (leaving
`REQUIRED_COLUMNS` untouched).  The hook is a total function: no failure
escapes it. -/
def startup_event (r : LoadResult) (st : ServerState) : ServerState :=
  match r with
  | .absent => { st with model := none }
  | .loadFailure _ => { st with model := none }
  | .loaded m => { model := some m, REQUIRED_COLUMNS := m.feature_names_in_ }

/-- The body of a `/health` response (the constant `model_path` field is
omitted; `hint` is present only in the not-ready branch). -/
structure HealthResponse where
  status : String
  model_loaded : Bool
  hint : Option String
deriving DecidableEq

/-- The `/health` route. -/
def health (st : ServerState) : HealthResponse :=
  match st.model with
  | none =>
    { status := "not_ready", model_loaded := false,
      hint := some "Model did not load. Check terminal logs printed at startup." }
  | some _ => { status := "healthy", model_loaded := true, hint := none }

/-- The body of a `/` response. -/
structure RootResponse where
  service : String
  model_path : String
  model_loaded : Bool
  required_columns : List String
  endpoints : List String
deriving DecidableEq

/-- The `/` route. -/
def root (st : ServerState) : RootResponse :=
  { service := "Breast Cancer Prediction API",
    model_path := MODEL_PATH,
    model_loaded := st.model.isSome,
    required_columns := st.REQUIRED_COLUMNS,
    endpoints := ["/health", "/predict", "/docs"] }

/-- The keys of an instance, in order. -/
def keys (inst : Instance) : List String := inst.map Prod.fst

/-- The DataFrame cell for instance `inst` at column `c`: the instance's
value if the key is present, `NaN` (here `none`) otherwise. -/
def cellOf (inst : Instance) (c : String) : Option ℚ := inst.lookup c

/-- First-occurrence deduplication, accumulating the names already kept. -/
def dedupFirstAux (seen : List String) : List String → List String
  | [] => []
  | c :: cs =>
    if c ∈ seen then dedupFirstAux seen cs
    else c :: dedupFirstAux (c :: seen) cs

/-- Keep the first occurrence of each name, preserving order. -/
def dedupFirst (l : List String) : List String := dedupFirstAux [] l

/-- `pd.DataFrame(instances).columns`: the union of the instances' keys in
order of first appearance. -/
def dfColumns (instances : List Instance) : List String :=
  dedupFirst ((instances.map keys).flatten)

/-- One row of the matrix handed to the artifact: the instance's cells
listed in the order of `cols`. -/
def rowOf (cols : List String) (inst : Instance) : List (Option ℚ) :=
  cols.map (cellOf inst)

/-- The value matrix of a DataFrame with columns `cols` built from
`instances` (also the result of selecting/reordering columns with
`X[cols]`, which keeps the same rows). -/
def matrixOf (cols : List String) (instances : List Instance) : List (List (Option ℚ)) :=
  instances.map (rowOf cols)

/-- `sorted(set(required) - set(cols))`: the required names absent from
`cols`, without duplicates, in ascending string order. -/
def sortedMissing (required cols : List String) : List String :=
  (dedupFirst (required.filter (fun c => c ∉ cols))).insertionSort (· ≤ ·)

/-- Python `repr` of a string (for names without quotes or escapes). -/
def pyRepr (s : String) : String := "\x27" ++ s ++ "\x27"

/-- Python `repr` of a list of simple strings, as interpolated into the
missing-columns detail by the f-string. -/
def pyListRepr (l : List String) : String :=
  "[" ++ String.intercalate ", " (l.map pyRepr) ++ "]"

/-- Outcome of one `predict` call: either an `HTTPException` with a status
code and detail string, or a `PredictResponse` body. -/
inductive PredictOutcome where
  | httpError (status : Nat) (detail : String)
  | ok (predictions : List Int) (count : Nat)
deriving DecidableEq

/-- `model.predict(X)` wrapped in its `try`: if the artifact raises, a 500
with the exception's message; otherwise the response, with one label per
row (`predictions = [int(p) for p in preds]`, the identity on the
`Int`-valued labels modelled here) and `count = len(preds)`.  The second
component counts the entries into `model.predict` (always 1 here: the call
is never retried). -/
def runModel (m : Model) (X : List (List (Option ℚ))) : PredictOutcome × Nat :=
  match m.rejects X with
  | some e => (.httpError 500 ("Prediction failed: " ++ e), 1)
  | none => (.ok (X.map m.predictRow) (X.map m.predictRow).length, 1)

/-- The `/predict` route, paired with the number of times `model.predict`
was entered while handling the request.  Mirrors the handler line by line:
the 503 guard, the empty-batch guard, the DataFrame construction, the
missing-column check and column reordering (both only when
`REQUIRED_COLUMNS` is non-empty), then the model call. -/
def predictT (st : ServerState) (instances : List Instance) : PredictOutcome × Nat :=
  match st.model with
  | none => (.httpError 503 "Model not loaded. Check /health and startup logs.", 0)
  | some m =>
    if instances.isEmpty then (.httpError 400 "No instances provided", 0)
    else
      let cols := dfColumns instances
      if st.REQUIRED_COLUMNS ≠ [] then
        let missing := sortedMissing st.REQUIRED_COLUMNS cols
        if missing ≠ [] then
          (.httpError 400 ("Missing required columns: " ++ pyListRepr missing), 0)
        else
          runModel m (matrixOf st.REQUIRED_COLUMNS instances)
      else
        runModel m (matrixOf cols instances)

/-- The `/predict` response (or error) alone. -/
def predict (st : ServerState) (instances : List Instance) : PredictOutcome :=
  (predictT st instances).1

/-- The columns of the matrix that `predict` hands to the artifact when it
reaches the model call: `REQUIRED_COLUMNS` when that list is non-empty
(after `X = X[REQUIRED_COLUMNS]`), the raw DataFrame columns otherwise. -/
def usedColumns (st : ServerState) (instances : List Instance) : List String :=
  if st.REQUIRED_COLUMNS = [] then dfColumns instances else st.REQUIRED_COLUMNS

/-- The `/predict` handler as a state transformer over the module globals.
Its body only reads `model` and `REQUIRED_COLUMNS` (it declares no
`global`), so it returns the state it was given. -/
def predictRoute (instances : List Instance) : StateM ServerState (PredictOutcome × Nat) :=
  fun st => (predictT st instances, st)

/-- The `/health` handler as a state transformer: read-only. -/
def healthRoute : StateM ServerState HealthResponse :=
  fun st => (health st, st)

/-- The `/` handler as a state transformer: read-only. -/
def rootRoute : StateM ServerState RootResponse :=
  fun st => (root st, st)

/-- The startup hook as a state transformer: the only writer of the
module globals. -/
def startupRoute (r : LoadResult) : StateM ServerState Unit :=
  fun st => ((), startup_event r st)

/-! ### Concrete artifacts and states used to exercise the definitions -/

/-- The scenario model of the spec: schema `["a", "b"]`, prediction
`1` when `a > b`, else `0` (and `0` on any malformed row). -/
def exModel : Model :=
  { feature_names_in_ := ["a", "b"],
    predictRow := fun r =>
      match r with
      | [some a, some b] => if b < a then 1 else 0
      | _ => 0,
    rejects := fun _ => none }

/-- The state after a startup that successfully loads `exModel`. -/
def stAB : ServerState := startup_event (.loaded exModel) initialState

/-- An order-sensitive artifact that exposes no `feature_names_in_`
metadata: it reads the row positionally. -/
def exModelNoMeta : Model :=
  { feature_names_in_ := [],
    predictRow := fun r =>
      match r with
      | [some a, some b] => if b < a then 1 else 0
      | _ => 5,
    rejects := fun _ => none }

/-- The state after a startup that loads `exModelNoMeta`: the model is
loaded but `REQUIRED_COLUMNS` stays empty. -/
def stNoMeta : ServerState := startup_event (.loaded exModelNoMeta) initialState

/-- An artifact whose inference always raises with message `boom`. -/
def exModelBoom : Model :=
  { feature_names_in_ := ["a"],
    predictRow := fun _ => 0,
    rejects := fun _ => some "boom" }

/-- A two-instance batch matching `exModel`'s schema. -/
def demoInstances : List Instance := [[("a", 5), ("b", 2)], [("a", 1), ("b", 9)]]

/-- A valid instance for `exModel`. -/
def permInstA : Instance := [("a", 5), ("b", 2)]

/-- The same cells as `permInstA` with the keys permuted and an extra
key outside the schema. -/
def permInstB : Instance := [("b", 2), ("a", 5), ("extra", 7)]

/-- A two-element batch whose second instance lacks the required key
`b` that its first instance supplies. -/
def raggedInstances : List Instance := [[("a", 5), ("b", 2)], [("a", 1)]]

/-- A valid instance for `exModelNoMeta`. -/
def cexInstA : Instance := [("a", 1), ("b", 2)]

/-- `cexInstA` with its two keys swapped. -/
def cexInstB : Instance := [("b", 2), ("a", 1)]

/-! ### Helper lemmas about the DataFrame embedding -/

theorem mem_dedupFirstAux (a : String) (seen l : List String) :
    a ∈ dedupFirstAux seen l ↔ a ∈ l ∧ a ∉ seen := by
  induction l generalizing seen with
  | nil => simp [dedupFirstAux]
  | cons c cs ih =>
    by_cases hc : c ∈ seen
    · rw [dedupFirstAux, if_pos hc, ih]
      simp only [List.mem_cons]
      constructor
      · rintro ⟨h1, h2⟩; exact ⟨Or.inr h1, h2⟩
      · rintro ⟨h1 | h1, h2⟩
        · exact absurd (h1 ▸ hc) h2
        · exact ⟨h1, h2⟩
    · rw [dedupFirstAux, if_neg hc]
      simp only [List.mem_cons, ih, List.mem_cons, not_or]
      constructor
      · rintro (rfl | ⟨h1, h2, h3⟩)
        · exact ⟨Or.inl rfl, hc⟩
        · exact ⟨Or.inr h1, h3⟩
      · rintro ⟨rfl | h1, h2⟩
        · exact Or.inl rfl
        · by_cases hac : a = c
          · exact Or.inl hac
          · exact Or.inr ⟨h1, hac, h2⟩

theorem mem_dedupFirst (a : String) (l : List String) :
    a ∈ dedupFirst l ↔ a ∈ l := by
  rw [dedupFirst, mem_dedupFirstAux]
  simp

theorem mem_dfColumns (c : String) (instances : List Instance) :
    c ∈ dfColumns instances ↔ ∃ inst ∈ instances, c ∈ keys inst := by
  rw [dfColumns, mem_dedupFirst]
  simp only [List.mem_flatten, List.mem_map]
  constructor
  · rintro ⟨l, ⟨inst, hinst, rfl⟩, hc⟩; exact ⟨inst, hinst, hc⟩
  · rintro ⟨inst, hinst, hc⟩; exact ⟨keys inst, ⟨inst, hinst, rfl⟩, hc⟩

theorem mem_dfColumns_singleton (c : String) (inst : Instance) :
    c ∈ dfColumns [inst] ↔ c ∈ keys inst := by
  rw [mem_dfColumns]; simp

theorem cellOf_isSome_iff (inst : Instance) (c : String) :
    (cellOf inst c).isSome = true ↔ c ∈ keys inst := by
  induction inst with
  | nil => simp [cellOf, List.lookup, keys]
  | cons p t ih =>
    obtain ⟨k, v⟩ := p
    by_cases hck : c = k
    · subst hck
      simp [cellOf, List.lookup, keys]
    · have hbeq : (c == k) = false := beq_false_of_ne hck
      rw [keys, List.map_cons, List.mem_cons]
      rw [cellOf, List.lookup, hbeq]
      simp only [cellOf, keys] at ih
      rw [ih]
      simp [hck]

/-- Inversion of a successful model call: a success outcome of
`runModel m (matrixOf C instances)` carries one prediction per instance,
`count` equal to the batch size, and at each index the artifact's label
for that instance's row, aligned to the columns `C`. -/
theorem runModel_ok_inv (m : Model) (C : List String) (instances : List Instance)
    (preds : List Int) (cnt n : Nat)
    (h : runModel m (matrixOf C instances) = (.ok preds cnt, n)) :
    preds.length = instances.length ∧ cnt = instances.length ∧
      ∀ (i : Nat) (inst : Instance), instances[i]? = some inst →
        preds[i]? = some (m.predictRow (rowOf C inst)) := by
  rw [runModel] at h
  cases hrej : m.rejects (matrixOf C instances) with
  | some e => rw [hrej] at h; simp at h
  | none =>
    rw [hrej] at h
    simp only [Prod.mk.injEq, PredictOutcome.ok.injEq] at h
    obtain ⟨⟨hp, hc⟩, _⟩ := h
    subst hp
    subst hc
    refine ⟨by simp [matrixOf], by simp [matrixOf], ?_⟩
    intro i inst hi
    simp [matrixOf, List.getElem?_map, hi]

/-! ### The claims -/

/-- C1: for every request that passes all validation steps and for which
the model's inference succeeds, the response's predictions list has exactly
one integer entry per input instance, `predictions[i]` is the model's
prediction for `instances[i]` (its row aligned to the columns actually
forwarded), and the response's `count` equals the number of input
instances. -/
theorem predict_ok_pointwise (st : ServerState) (m : Model) (instances : List Instance)
    (preds : List Int) (cnt n : Nat)
    (hm : st.model = some m)
    (h : predictT st instances = (.ok preds cnt, n)) :
    preds.length = instances.length ∧ cnt = instances.length ∧
      ∀ (i : Nat) (inst : Instance), instances[i]? = some inst →
        preds[i]? = some (m.predictRow (rowOf (usedColumns st instances) inst)) := by
  obtain ⟨mo, req⟩ := st
  cases hm
  simp only [predictT] at h
  by_cases hemp : instances.isEmpty
  · rw [if_pos hemp] at h
    exact absurd h (by simp)
  · rw [if_neg hemp] at h
    by_cases hreq : req ≠ []
    · rw [if_pos hreq] at h
      by_cases hmiss : sortedMissing req (dfColumns instances) ≠ []
      · rw [if_pos hmiss] at h
        exact absurd h (by simp)
      · rw [if_neg hmiss] at h
        have hres := runModel_ok_inv m req instances preds cnt n h
        rwa [usedColumns, if_neg hreq]
    · rw [if_neg hreq] at h
      have hreq2 : req = [] := not_not.mp hreq
      have hres := runModel_ok_inv m (dfColumns instances) instances preds cnt n h
      rwa [usedColumns, if_pos hreq2]

/-- Witness for C1: on the spec's two-instance scenario batch,
`predictions[0]` is `exModel`'s label for the first instance's aligned
row. -/
theorem predict_ok_pointwise_witness :
    ([1, 0] : List ℤ)[0]? =
      some (exModel.predictRow (rowOf (usedColumns stAB demoInstances) [("a", 5), ("b", 2)])) :=
  (predict_ok_pointwise stAB exModel demoInstances [1, 0] 2 1 rfl (by decide)).2.2
    0 [("a", 5), ("b", 2)] rfl

/-- C3: whatever the payload (valid or not, empty or not), while the model
is not loaded `predict` fails with 503 before any other validation step
and without invoking the model. -/
theorem predict_requires_loaded_model (req : List String) (instances : List Instance) :
    predictT { model := none, REQUIRED_COLUMNS := req } instances =
      (.httpError 503 "Model not loaded. Check /health and startup logs.", 0) := rfl

/-- C5: an empty batch submitted while the model is loaded fails with 400
and detail `No instances provided`, and the model is never invoked. -/
theorem predict_rejects_empty_batch (m : Model) (req : List String) :
    predictT { model := some m, REQUIRED_COLUMNS := req } [] =
      (.httpError 400 "No instances provided", 0) := rfl

/-- C9: when the model is loaded but `REQUIRED_COLUMNS` is empty, a
non-empty batch skips the missing-column check and the column
reordering/selection entirely: the model is called directly on the matrix
whose columns are the raw DataFrame columns (first-appearance key order,
extra keys retained). -/
theorem predict_no_schema_passthrough (m : Model) (inst : Instance) (rest : List Instance) :
    predictT { model := some m, REQUIRED_COLUMNS := [] } (inst :: rest) =
      runModel m (matrixOf (dfColumns (inst :: rest)) (inst :: rest)) := rfl

/-- C8: a startup in which loading fails (file absent or load raising)
leaves `model = None` and the health query reports `not_ready` with
`model_loaded = false`; after a successful load the health query reports
`healthy` with `model_loaded = true`.  `startup_event` is total, so the
failure is swallowed rather than raised. -/
theorem startup_failure_nonfatal_health (st : ServerState) (r : LoadResult) :
    ((r = .absent ∨ ∃ e, r = .loadFailure e) →
      (startup_event r st).model = none ∧
      health (startup_event r st) =
        { status := "not_ready", model_loaded := false,
          hint := some "Model did not load. Check terminal logs printed at startup." }) ∧
    (∀ m, r = .loaded m →
      (startup_event r st).model = some m ∧
      health (startup_event r st) =
        { status := "healthy", model_loaded := true, hint := none }) := by
  constructor
  · rintro (rfl | ⟨e, rfl⟩) <;> exact ⟨rfl, rfl⟩
  · rintro m rfl
    exact ⟨rfl, rfl⟩

/-- Witness for C8: a startup that finds no artifact file reports
`not_ready`, and one that loads `exModel` reports a healthy state. -/
theorem startup_failure_nonfatal_health_witness :
    (startup_event LoadResult.absent initialState).model = none ∧
    health (startup_event (LoadResult.loaded exModel) initialState) =
      { status := "healthy", model_loaded := true, hint := none } :=
  ⟨((startup_failure_nonfatal_health initialState LoadResult.absent).1 (Or.inl rfl)).1,
   ((startup_failure_nonfatal_health initialState (LoadResult.loaded exModel)).2
      exModel rfl).2⟩

/-- C10: no request-handling route writes the module globals: `predict`,
`health` and `root` return the state they were given, whatever the
outcome; only the startup hook transforms the state (by `startup_event`). -/
theorem request_routes_preserve_state (st : ServerState) (instances : List Instance) :
    ((predictRoute instances).run st).2 = st ∧
    (healthRoute.run st).2 = st ∧
    (rootRoute.run st).2 = st ∧
    ∀ r, ((startupRoute r).run st).2 = startup_event r st :=
  ⟨rfl, rfl, rfl, fun _ => rfl⟩

/-- Counterexample to C2 as stated: in the batch `raggedInstances` the
second instance lacks the required feature `b` (supplied by the first
instance), yet `predict` does not fail with a 400: the DataFrame columns
are the union — not the intersection — of the instances' key sets, so the
missing-column check passes, the absent cell is forwarded as `NaN`, and
the model is invoked once, returning a success response. -/
theorem predict_missing_intersection_cex :
    "b" ∈ stAB.REQUIRED_COLUMNS ∧
    raggedInstances[1]? = some [("a", 1)] ∧
    cellOf ([("a", 1)] : Instance) "b" = none ∧
    predictT stAB raggedInstances = (.ok [1, 0] 2, 1) := by decide

/-- C2 (amended): for every non-empty batch submitted while the model is
loaded and `REQUIRED_COLUMNS` is non-empty, if some required feature name
is absent from every instance of the batch — the missing set being
`requiredColumns()` minus the union of the key sets of all instances —
then `predict` fails with a 400 whose detail names exactly the missing
columns in sorted order, and the model is never invoked. -/
theorem predict_missing_columns_union (m : Model) (req : List String)
    (instances : List Instance)
    (hne : instances ≠ [])
    (hreq : req ≠ [])
    (hmiss : sortedMissing req (dfColumns instances) ≠ []) :
    predictT { model := some m, REQUIRED_COLUMNS := req } instances =
      (.httpError 400
        ("Missing required columns: " ++
          pyListRepr (sortedMissing req (dfColumns instances))), 0) := by
  simp only [predictT]
  have hemp : ¬(instances.isEmpty = true) := by
    cases instances with
    | nil => exact absurd rfl hne
    | cons a l => simp
  rw [if_neg hemp, if_pos hreq, if_pos hmiss]

/-- Witness for C2 (amended): a single instance supplying only `a`
against the schema `["a", "b"]` is rejected naming `b`. -/
theorem predict_missing_columns_union_witness :
    predictT { model := some exModel, REQUIRED_COLUMNS := ["a", "b"] } [[("a", 1)]] =
      (.httpError 400
        ("Missing required columns: " ++
          pyListRepr (sortedMissing ["a", "b"] (dfColumns [[("a", 1)]]))), 0) :=
  predict_missing_columns_union exModel ["a", "b"] [[("a", 1)]]
    (by decide) (by decide) (by decide)

/-- Counterexample to C4 as stated: with a model loaded whose artifact
exposes no feature-name metadata (`REQUIRED_COLUMNS = []`), permuting the
keys of a valid single instance changes the prediction: the columns are
then taken in key order, which the order-sensitive artifact observes. -/
theorem predict_key_order_sensitivity_cex :
    stNoMeta.model.isSome = true ∧
    cexInstB.Perm cexInstA ∧
    predictT stNoMeta [cexInstA] = (.ok [0] 1, 1) ∧
    predictT stNoMeta [cexInstB] = (.ok [1] 1, 1) := by decide

/-- C4 (amended): while the model is loaded and the Feature Schema
(`REQUIRED_COLUMNS`) is non-empty, two single-instance requests whose
instances agree on every schema column — in particular one instance being
the other with its keys permuted, or with extra keys outside the schema
added — receive identical outcomes: the forwarded columns are selected
and ordered by the schema alone, and extra keys are discarded. -/
theorem predict_schema_lookup_invariance (m : Model) (req : List String)
    (inst1 inst2 : Instance)
    (hreq : req ≠ [])
    (hagree : ∀ c ∈ req, cellOf inst1 c = cellOf inst2 c) :
    predictT { model := some m, REQUIRED_COLUMNS := req } [inst1] =
      predictT { model := some m, REQUIRED_COLUMNS := req } [inst2] := by
  have hfilter : req.filter (fun c => c ∉ dfColumns [inst1]) =
      req.filter (fun c => c ∉ dfColumns [inst2]) := by
    apply List.filter_congr
    intro c hc
    have h1 := hagree c hc
    have hmem : c ∈ dfColumns [inst1] ↔ c ∈ dfColumns [inst2] := by
      rw [mem_dfColumns_singleton, mem_dfColumns_singleton,
        ← cellOf_isSome_iff, ← cellOf_isSome_iff, h1]
    simp [hmem]
  have hmiss : sortedMissing req (dfColumns [inst1]) =
      sortedMissing req (dfColumns [inst2]) := by
    rw [sortedMissing, sortedMissing, hfilter]
  have hrow : rowOf req inst1 = rowOf req inst2 := by
    rw [rowOf, rowOf]
    exact List.map_congr_left hagree
  have hmat : matrixOf req [inst1] = matrixOf req [inst2] := by
    rw [matrixOf, matrixOf, List.map_cons, List.map_cons, List.map_nil, hrow]
  simp only [predictT, List.isEmpty_cons, Bool.false_eq_true, if_false]
  rw [if_pos hreq, if_pos hreq, hmiss, hmat]

/-- Witness for C4 (amended): permuting the keys of a valid instance and
adding an extra key outside the schema leaves the outcome unchanged. -/
theorem predict_schema_lookup_invariance_witness :
    predictT stAB [permInstA] = predictT stAB [permInstB] :=
  predict_schema_lookup_invariance exModel ["a", "b"] permInstA permInstB
    (by decide) (by decide)

/-- Status inversion for the model call: an error outcome of `runModel`
always carries status 500. -/
theorem runModel_status (m : Model) (X : List (List (Option ℚ))) (s : Nat) (d : String)
    (h : (runModel m X).1 = .httpError s d) : s = 500 := by
  rw [runModel] at h
  cases hrej : m.rejects X with
  | some e =>
    rw [hrej] at h
    simp only [PredictOutcome.httpError.injEq] at h
    exact h.1.symm
  | none =>
    rw [hrej] at h
    simp at h

/-- C6: whenever a request reaches the model-invocation step and the
artifact's inference raises, `predict` fails with a 500 carrying the
underlying error's detail, and the model was entered exactly once — the
call is not retried. -/
theorem predict_inference_error_surfaced (m : Model) (req : List String)
    (instances : List Instance) (e : String)
    (hinv : (predictT { model := some m, REQUIRED_COLUMNS := req } instances).2 ≠ 0)
    (hrej : m.rejects
        (matrixOf (usedColumns { model := some m, REQUIRED_COLUMNS := req } instances)
          instances) = some e) :
    predictT { model := some m, REQUIRED_COLUMNS := req } instances =
      (.httpError 500 ("Prediction failed: " ++ e), 1) := by
  simp only [predictT] at hinv ⊢
  by_cases hemp : instances.isEmpty
  · rw [if_pos hemp] at hinv
    exact absurd rfl hinv
  · rw [if_neg hemp] at hinv ⊢
    by_cases hreq : req ≠ []
    · rw [if_pos hreq] at hinv ⊢
      by_cases hmiss : sortedMissing req (dfColumns instances) ≠ []
      · rw [if_pos hmiss] at hinv
        exact absurd rfl hinv
      · rw [if_neg hmiss]
        have hcols : usedColumns { model := some m, REQUIRED_COLUMNS := req } instances = req := by
          rw [usedColumns]
          exact if_neg hreq
        rw [hcols] at hrej
        rw [runModel, hrej]
    · rw [if_neg hreq]
      have hreq2 : req = [] := not_not.mp hreq
      have hcols : usedColumns { model := some m, REQUIRED_COLUMNS := req } instances =
          dfColumns instances := by
        rw [usedColumns]
        exact if_pos hreq2
      rw [hcols] at hrej
      rw [runModel, hrej]

/-- Witness for C6: an artifact that raises `boom` on inference turns
into a 500 with that detail, with exactly one model entry. -/
theorem predict_inference_error_surfaced_witness :
    predictT { model := some exModelBoom, REQUIRED_COLUMNS := ["a"] } [[("a", 1)]] =
      (.httpError 500 ("Prediction failed: " ++ "boom"), 1) :=
  predict_inference_error_surfaced exModelBoom ["a"] [[("a", 1)]] "boom"
    (by decide) (by decide)

/-- C7: every validation failure is reported before any call into the
model artifact: whenever `predict` returns a 400 or a 503, the model's
inference routine has been entered zero times for that request. -/
theorem predict_validation_before_model (st : ServerState) (instances : List Instance)
    (s : Nat) (d : String)
    (herr : (predictT st instances).1 = .httpError s d)
    (hval : s = 400 ∨ s = 503) :
    (predictT st instances).2 = 0 := by
  obtain ⟨mo, req⟩ := st
  cases mo with
  | none => rfl
  | some m =>
    simp only [predictT] at herr ⊢
    by_cases hemp : instances.isEmpty
    · rw [if_pos hemp]
    · rw [if_neg hemp] at herr ⊢
      by_cases hreq : req ≠ []
      · rw [if_pos hreq] at herr ⊢
        by_cases hmiss : sortedMissing req (dfColumns instances) ≠ []
        · rw [if_pos hmiss]
        · rw [if_neg hmiss] at herr
          have h500 := runModel_status m (matrixOf req instances) s d herr
          rcases hval with rfl | rfl <;> omega
      · rw [if_neg hreq] at herr
        have h500 := runModel_status m (matrixOf (dfColumns instances) instances) s d herr
        rcases hval with rfl | rfl <;> omega

/-- Witness for C7: the 503 returned for a not-ready service comes with
zero model entries. -/
theorem predict_validation_before_model_witness :
    (predictT initialState []).2 = 0 :=
  predict_validation_before_model initialState [] 503
    "Model not loaded. Check /health and startup logs." rfl (Or.inr rfl)

end PredictionService
